import Mathlib

/-!
Shallow embedding of the swatchify generation pipeline
(src/main.rs, src/commands/generate.rs, src/helpers/fs.rs).

Machine integers (Rust i32) are modelled as Int with explicit range checks
where parsing matters; Rust String is modelled as Lean String (both are
sequences of Unicode scalar values via chars()/toList); fallible code is
modelled with Option/Except.
-/

namespace Swatchify

/-- One row of the inventory table (struct FilamentRecord, generate.rs:84-89).
Rust field order: manufacturer, color, material, temperature (i32). -/
structure FilamentRecord where
  manufacturer : String
  color : String
  material : String
  temperature : Int
deriving DecidableEq, Repr

/-- The Display impl for FilamentRecord (generate.rs:91-99):
`write!(f, "{} - {} - {}", manufacturer, material, color)`.
This string is the canonical identity of a record. -/
def FilamentRecord.display (f : FilamentRecord) : String :=
  f.manufacturer ++ " - " ++ f.material ++ " - " ++ f.color

/-- enum OutputField (generate.rs:206-212). -/
inductive OutputField where
  | Manufacturer
  | Color
  | Temperature
  | Material
deriving DecidableEq, Repr

/-- enum OutputFormat (generate.rs:214-218). -/
inductive OutputFormat where
  | ThreeMf
  | Stl
deriving DecidableEq, Repr

/-- The extension string each OutputFormat selects in render
(generate.rs:116-119: `with_extension("3mf")` / `with_extension("stl")`). -/
def OutputFormat.extension : OutputFormat → String
  | .ThreeMf => "3mf"
  | .Stl => "stl"

/-- struct SwatchOptions (generate.rs:233-256). Rust stores width/height as
f32 and renders them with to_string; no claim depends on float formatting, so
the two fields are carried as their rendered decimal strings. The text sizes
are i8, rendered with to_string (decimal), modelled as Int with toString. -/
structure SwatchOptions where
  width : String
  height : String
  text_upper : OutputField
  text_lower_left : OutputField
  text_lower_right : OutputField
  text_size_upper : Int
  text_size_lower : Int
deriving DecidableEq, Repr

/-- struct GeneratorOptions (main.rs:27-48). The inventory/destination/
openscad_path fields are filesystem handles consumed at the IO boundary;
the pure pipeline logic reads only output_format, force and swatch_design. -/
structure GeneratorOptions where
  output_format : OutputFormat
  force : Bool
  swatch_design : SwatchOptions
deriving DecidableEq, Repr

/-- struct FilamentSwatchOptions (generate.rs:30-64): the renderer-facing
parameter set, all 31 fields string-typed (serde serializes every value as a
JSON string). Field `fragments` carries serde rename "$fn". -/
structure FilamentSwatchOptions where
  fragments : String
  edge_tests : String
  font_recessed : String
  fontname : String
  h : String
  linesep : String
  r_hole : String
  r_indent : String
  round : String
  step_thickness_correction : String
  steps_text : String
  steps_text_format : String
  steps_text_rotate : String
  steps_textheight : String
  steps_textsize : String
  steps_thickness : String
  tack_hole : String
  test_circles : String
  text_type : String
  textsize_lower : String
  textsize_upper : String
  textstring1 : String
  textstring2 : String
  textstring3 : String
  texttop : String
  texttop_configurable : String
  th : String
  thole_d : String
  thole_top_shiftright : String
  w : String
  wall : String
deriving DecidableEq, Repr

/-- struct CustomizerSettings (generate.rs:66-72); the HashMap of named
parameter sets is modelled as an association list. -/
structure CustomizerSettings where
  parameter_sets : List (String × FilamentSwatchOptions)
  file_format_version : String

/-- render_text_field (generate.rs:101-108). The Temperature arm's format
literal in the source holds the bytes c3 82 c2 b0 before `C`, i.e. the two
Unicode scalars U+00C2 (Â) and U+00B0 (°) — mojibake of a double-encoded
degree sign — so the rendered text is "0.2mm @ <t>Â°C". -/
def render_text_field (filament : FilamentRecord) (field : OutputField) : String :=
  match field with
  | .Manufacturer => filament.manufacturer
  | .Color => filament.color
  | .Temperature => "0.2mm @ " ++ toString filament.temperature ++ "Â°C"
  | .Material => filament.material

/-- The FilamentSwatchOptions literal built inside render (generate.rs:130-146):
eight fields overridden, `..defaults` for the rest. The material spell-out is
`material.chars().map(|c| c.to_string()).collect::<Vec<_>>().join(" ")`. -/
def buildSwatchOptions (filament : FilamentRecord) (options : GeneratorOptions)
    (defaults : FilamentSwatchOptions) : FilamentSwatchOptions :=
  { defaults with
    textstring1 := render_text_field filament options.swatch_design.text_upper
    textstring2 := render_text_field filament options.swatch_design.text_lower_left
    textstring3 := render_text_field filament options.swatch_design.text_lower_right
    texttop_configurable :=
      String.intercalate " " (filament.material.toList.map Char.toString)
    textsize_lower := toString options.swatch_design.text_size_lower
    textsize_upper := toString options.swatch_design.text_size_upper
    w := options.swatch_design.width
    h := options.swatch_design.height }

/-- The CustomizerSettings literal built inside render (generate.rs:148-153):
exactly one named set, "Generator", and the Default's version tag "1". -/
def buildCustomizerSettings (filament : FilamentRecord) (options : GeneratorOptions)
    (defaults : FilamentSwatchOptions) : CustomizerSettings :=
  { parameter_sets := [("Generator", buildSwatchOptions filament options defaults)]
    file_format_version := "1" }

/-! ### Path model (std::path semantics used by render) -/

/-- Index of the last '.' in a character list, if any. -/
def lastDotIdx : List Char → Option Nat
  | [] => none
  | c :: cs =>
    match lastDotIdx cs with
    | some i => some (i + 1)
    | none => if c = '.' then some 0 else none

/-- Rust `Path::with_extension(ext)` restricted to a nonempty single-component
relative file name (the shape render feeds it): the extension is everything
after the last '.', except that a '.' at position 0 with no later '.' marks a
hidden file with no extension. with_extension replaces the extension when one
exists, else appends `.ext`. -/
def rustWithExtension (name ext : String) : String :=
  match lastDotIdx name.toList with
  | none => name ++ "." ++ ext
  | some i =>
    if i = 0 then name ++ "." ++ ext
    else String.mk (name.toList.take i) ++ "." ++ ext

/-- The output file name computed in render (generate.rs:116-119):
`PathBuf::from(filament.to_string()).with_extension(<ext>)`. -/
def outputFilename (filament : FilamentRecord) (fmt : OutputFormat) : String :=
  rustWithExtension filament.display fmt.extension

/-- The full destination path computed in render (generate.rs:121-127):
`destination_folder.join(material).join(manufacturer).join(filename)`,
modelled as '/'-separated concatenation of relative components. -/
def destinationPath (destination_folder : String) (filament : FilamentRecord)
    (fmt : OutputFormat) : String :=
  destination_folder ++ "/" ++ filament.material ++ "/" ++ filament.manufacturer
    ++ "/" ++ outputFilename filament fmt

/-- The output path as the spec words it (for refinement comparison only):
`<root>/<material>/<manufacturer>/<manufacturer> - <material> - <color>.<ext>`. -/
def specOutputPath (root : String) (filament : FilamentRecord) (ext : String) : String :=
  root ++ "/" ++ filament.material ++ "/" ++ filament.manufacturer ++ "/"
    ++ filament.manufacturer ++ " - " ++ filament.material ++ " - "
    ++ filament.color ++ "." ++ ext

/-! ### Existing-output scan (helpers/fs.rs) -/

/-- PRINTABLE_FILE_TYPES (fs.rs:5). -/
def PRINTABLE_FILE_TYPES : List String := ["step", "3mf", "stl", "obj"]

/-- Rust `Path::extension()` of a single-component file name: the part after
the last '.', none when there is no '.' or the only '.' leads the name. -/
def rustExtensionOf (name : String) : Option String :=
  match lastDotIdx name.toList with
  | none => none
  | some i => if i = 0 then none else some (String.mk (name.toList.drop (i + 1)))

/-- Rust `str::to_lowercase` modelled per character; the Unicode special
cases beyond ASCII do not matter for the extension comparison it feeds. -/
def rustToLowercase (s : String) : String :=
  String.mk (s.toList.map Char.toLower)

/-- is_printable_file (fs.rs:15-24): lowercase the name, take its extension,
check membership in PRINTABLE_FILE_TYPES. -/
def is_printable_file (file : String) : Bool :=
  match rustExtensionOf (rustToLowercase file) with
  | some ext => PRINTABLE_FILE_TYPES.contains ext
  | none => false

/-- list_existing_swatches (fs.rs:38-46) as a function of the basenames of all
regular files beneath the output root (the WalkDir traversal supplies that
list; is_dir_or_printable keeps every directory and exactly the printable
files, and the final map takes basenames). -/
def list_existing_swatches (fileBasenames : List String) : List String :=
  fileBasenames.filter is_printable_file

/-! ### Inventory reading (csv + serde semantics of write, generate.rs:183-194) -/

/-- Rust `i32::from_str` (what serde uses for the temperature column):
optional single '+'/'-' sign, then one or more ASCII digits, value within
the i32 range. -/
def parseI32 (s : String) : Option Int :=
  let cs := s.toList
  let signed : Int × List Char :=
    match cs with
    | '-' :: rest => (-1, rest)
    | '+' :: rest => (1, rest)
    | _ => (1, cs)
  let digits := signed.2
  if digits = [] then none
  else if digits.all Char.isDigit then
    let n : Int := signed.1 * (digits.foldl (fun acc d => acc * 10 + (d.toNat - 48)) 0 : Nat)
    if -(2 ^ 31) ≤ n ∧ n < 2 ^ 31 then some n else none
  else none

/-- One CSV data row (fields in header order manufacturer,color,material,
temperature) deserialized into a FilamentRecord: the csv reader with the
default strict configuration rejects a row whose field count differs from the
header's, and serde rejects a temperature that does not parse as i32. -/
def parseRow (row : List String) : Option FilamentRecord :=
  match row with
  | [m, c, mat, t] => (parseI32 t).map fun temp => ⟨m, c, mat, temp⟩
  | _ => none

/-- `reader.deserialize().filter_map(Result::ok)` (generate.rs:190-192):
rows that fail to parse are dropped, the rest become records in order. -/
def readInventory (rows : List (List String)) : List FilamentRecord :=
  rows.filterMap parseRow

/-- The pending (to-render) set computed by write (generate.rs:190-194):
parsed records filtered by `!existing.contains(&f.to_string())`. The body of
write never reads `options.force`; only the dedup filter above is applied. -/
def writePendingRecords (options : GeneratorOptions) (existing : List String)
    (rows : List (List String)) : List FilamentRecord :=
  (readInventory rows).filter (fun f => !(existing.contains f.display))

/-! ### Render invocation outcome (generate.rs:161-171) -/

/-- The slice of std::process::Output that render could observe: the child's
exit status (0 = success, nonzero = failure). -/
structure ProcessOutput where
  status : Int
deriving DecidableEq, Repr

/-- The tail of render (generate.rs:161-171): `Command::new(...)....output()?;
Ok(())`. `.output()` is Err only when spawning fails; the `?` propagates that,
and the returned Output — in particular a nonzero exit status — is discarded. -/
def renderCommandResult (spawn : Except String ProcessOutput) : Except String Unit :=
  match spawn with
  | .error e => .error e
  | .ok _ => .ok ()

/-- The CLI-default GeneratorOptions (main.rs:36-47, generate.rs:236-255):
format stl, force off, 80x32, temperature/manufacturer/color slots, sizes 4/5. -/
def sampleOptions : GeneratorOptions :=
  { output_format := .Stl
    force := false
    swatch_design :=
      { width := "80"
        height := "32"
        text_upper := .Temperature
        text_lower_left := .Manufacturer
        text_lower_right := .Color
        text_size_upper := 4
        text_size_lower := 5 } }

end Swatchify

namespace Swatchify

/-- A last-dot index returned by lastDotIdx is a valid index. -/
theorem lastDotIdx_lt_length {cs : List Char} {i : Nat} (h : lastDotIdx cs = some i) :
    i < cs.length := by
  induction cs generalizing i with
  | nil => simp [lastDotIdx] at h
  | cons c cs ih =>
    have h2 : (match lastDotIdx cs with
        | some j => some (j + 1)
        | none => if c = '.' then some 0 else none) = some i := h
    cases hrec : lastDotIdx cs with
    | some j =>
      rw [hrec] at h2
      injection h2 with h3
      subst h3
      exact Nat.succ_lt_succ (ih hrec)
    | none =>
      rw [hrec] at h2
      by_cases hc : c = '.'
      · rw [if_pos hc] at h2
        injection h2 with h3
        subst h3
        exact Nat.succ_pos _
      · rw [if_neg hc] at h2
        exact absurd h2 (by simp)

/-- A character list without '.' has no last-dot index. -/
theorem lastDotIdx_eq_none {cs : List Char} (h : '.' ∉ cs) : lastDotIdx cs = none := by
  induction cs with
  | nil => rfl
  | cons c cs ih =>
    simp only [List.mem_cons, not_or] at h
    show (match lastDotIdx cs with
      | some j => some (j + 1)
      | none => if c = '.' then some 0 else none) = none
    rw [ih h.2, if_neg (fun hc => h.1 hc.symm)]

end Swatchify

namespace Swatchify

/-- Claim C1 (code evaluated at the failing input): the record
{Prusament, Galaxy Black, PETG, 230} would render to the file name
"Prusament - PETG - Galaxy Black.stl"; with exactly that basename already
present under the output root (and surviving the printable-extension scan),
write's pending set still contains the record, because the filter compares
the bare identity string (no extension) against basenames that carry one. -/
theorem c1_pending_set_keeps_already_rendered_record :
    outputFilename (FilamentRecord.mk "Prusament" "Galaxy Black" "PETG" 230)
        OutputFormat.Stl = "Prusament - PETG - Galaxy Black.stl"
    ∧ list_existing_swatches ["Prusament - PETG - Galaxy Black.stl"]
        = ["Prusament - PETG - Galaxy Black.stl"]
    ∧ writePendingRecords sampleOptions ["Prusament - PETG - Galaxy Black.stl"]
        [["Prusament", "Galaxy Black", "PETG", "230"]]
        = [FilamentRecord.mk "Prusament" "Galaxy Black" "PETG" 230] := by
  refine ⟨rfl, ?_, ?_⟩ <;> decide

/-- Claim C2 counterexample: a renderer invocation that spawns and exits with
status 1 (nonzero) still makes render return Ok — the exit status is never
inspected, so no error is surfaced. -/
theorem c2_render_ignores_exit_status :
    renderCommandResult (Except.ok (ProcessOutput.mk 1)) = Except.ok ()
    ∧ (ProcessOutput.mk 1).status ≠ 0 := by
  refine ⟨rfl, ?_⟩
  decide

/-- Claim C2 amended: render's subprocess step returns an error exactly when
spawning the renderer fails; when the process runs, render returns Ok
regardless of the exit status, which is discarded. -/
theorem c2_render_error_only_on_spawn_failure :
    (∀ o : ProcessOutput, renderCommandResult (Except.ok o) = Except.ok ())
    ∧ (∀ e : String, renderCommandResult (Except.error e) = Except.error e) :=
  ⟨fun _ => rfl, fun _ => rfl⟩

/-- Claim C3: for every record, layout and baseline, the parameter set built
for "Generator" leaves each of the 23 baseline fields outside
{textstring1, textstring2, textstring3, texttop_configurable, w, h,
textsize_lower, textsize_upper} equal to the baseline's value. -/
theorem c3_parameter_override_frame (filament : FilamentRecord)
    (options : GeneratorOptions) (defaults : FilamentSwatchOptions) :
    (buildSwatchOptions filament options defaults).fragments = defaults.fragments
    ∧ (buildSwatchOptions filament options defaults).edge_tests = defaults.edge_tests
    ∧ (buildSwatchOptions filament options defaults).font_recessed = defaults.font_recessed
    ∧ (buildSwatchOptions filament options defaults).fontname = defaults.fontname
    ∧ (buildSwatchOptions filament options defaults).linesep = defaults.linesep
    ∧ (buildSwatchOptions filament options defaults).r_hole = defaults.r_hole
    ∧ (buildSwatchOptions filament options defaults).r_indent = defaults.r_indent
    ∧ (buildSwatchOptions filament options defaults).round = defaults.round
    ∧ (buildSwatchOptions filament options defaults).step_thickness_correction
        = defaults.step_thickness_correction
    ∧ (buildSwatchOptions filament options defaults).steps_text = defaults.steps_text
    ∧ (buildSwatchOptions filament options defaults).steps_text_format
        = defaults.steps_text_format
    ∧ (buildSwatchOptions filament options defaults).steps_text_rotate
        = defaults.steps_text_rotate
    ∧ (buildSwatchOptions filament options defaults).steps_textheight
        = defaults.steps_textheight
    ∧ (buildSwatchOptions filament options defaults).steps_textsize
        = defaults.steps_textsize
    ∧ (buildSwatchOptions filament options defaults).steps_thickness
        = defaults.steps_thickness
    ∧ (buildSwatchOptions filament options defaults).tack_hole = defaults.tack_hole
    ∧ (buildSwatchOptions filament options defaults).test_circles = defaults.test_circles
    ∧ (buildSwatchOptions filament options defaults).text_type = defaults.text_type
    ∧ (buildSwatchOptions filament options defaults).texttop = defaults.texttop
    ∧ (buildSwatchOptions filament options defaults).th = defaults.th
    ∧ (buildSwatchOptions filament options defaults).thole_d = defaults.thole_d
    ∧ (buildSwatchOptions filament options defaults).thole_top_shiftright
        = defaults.thole_top_shiftright
    ∧ (buildSwatchOptions filament options defaults).wall = defaults.wall :=
  ⟨rfl, rfl, rfl, rfl, rfl, rfl, rfl, rfl, rfl, rfl, rfl, rfl, rfl, rfl, rfl, rfl,
    rfl, rfl, rfl, rfl, rfl, rfl, rfl⟩

/-- Claim C4: the canonical identity is manufacturer, material and color
joined by the fixed separator " - ", so two records agreeing on those three
fields display identically whatever their temperatures. -/
theorem c4_identity_determinism (r1 r2 : FilamentRecord)
    (hman : r1.manufacturer = r2.manufacturer) (hmat : r1.material = r2.material)
    (hcol : r1.color = r2.color) :
    r1.display = r1.manufacturer ++ " - " ++ r1.material ++ " - " ++ r1.color
    ∧ r1.display = r2.display := by
  refine ⟨rfl, ?_⟩
  unfold FilamentRecord.display
  rw [hman, hmat, hcol]

/-- Witness for C4 at two concrete records differing only in temperature. -/
theorem c4_identity_determinism_witness :
    (FilamentRecord.mk "Prusament" "Galaxy Black" "PETG" 230).display
        = (FilamentRecord.mk "Prusament" "Galaxy Black" "PETG" 230).manufacturer
          ++ " - " ++ (FilamentRecord.mk "Prusament" "Galaxy Black" "PETG" 230).material
          ++ " - " ++ (FilamentRecord.mk "Prusament" "Galaxy Black" "PETG" 230).color
    ∧ (FilamentRecord.mk "Prusament" "Galaxy Black" "PETG" 230).display
        = (FilamentRecord.mk "Prusament" "Galaxy Black" "PETG" 999).display :=
  c4_identity_determinism
    (FilamentRecord.mk "Prusament" "Galaxy Black" "PETG" 230)
    (FilamentRecord.mk "Prusament" "Galaxy Black" "PETG" 999) rfl rfl rfl

/-- Claim C5 (code evaluated at the failing input): with temperature 230 the
temperature text slot renders as "0.2mm @ 230Â°C" (scalars U+00C2 U+00B0
before C, the mojibake in the source literal), which differs from the
"0.2mm @ 230°C" the claim states. -/
theorem c5_temperature_slot_renders_mojibake :
    render_text_field (FilamentRecord.mk "Prusament" "Galaxy Black" "PETG" 230)
        OutputField.Temperature = "0.2mm @ 230Â°C"
    ∧ render_text_field (FilamentRecord.mk "Prusament" "Galaxy Black" "PETG" 230)
        OutputField.Temperature ≠ "0.2mm @ 230°C" := by
  refine ⟨rfl, ?_⟩
  decide

end Swatchify

namespace Swatchify

/-- Claim C6: the texttop_configurable field is the record's material spelled
out per logical character (Unicode scalar), joined by single ASCII spaces:
in general the intercalation of the material's characters, and concretely
"PLA" → "P L A", the two-scalar "ÄB" → "Ä B", and any single-character
material → that character alone, with no leading or trailing space. -/
theorem c6_material_spell_out (f : FilamentRecord) (options : GeneratorOptions)
    (defaults : FilamentSwatchOptions) (manufacturer color : String)
    (temperature : Int) (c : Char) :
    (buildSwatchOptions f options defaults).texttop_configurable
        = String.intercalate " " (f.material.toList.map Char.toString)
    ∧ (buildSwatchOptions (FilamentRecord.mk manufacturer color "PLA" temperature)
        options defaults).texttop_configurable = "P L A"
    ∧ (buildSwatchOptions (FilamentRecord.mk manufacturer color "ÄB" temperature)
        options defaults).texttop_configurable = "Ä B"
    ∧ (buildSwatchOptions
        (FilamentRecord.mk manufacturer color (String.singleton c) temperature)
        options defaults).texttop_configurable = Char.toString c :=
  ⟨rfl, rfl, rfl, rfl⟩

/-- Claim C7 counterexample: for the record with color "Galaxy v1.5",
with_extension treats ".5" as an extension and replaces it, so the computed
path ends in "Galaxy v1.stl" and differs from the
`<root>/<material>/<manufacturer>/<identity>.<ext>` formula. -/
theorem c7_dotted_color_breaks_path_formula :
    destinationPath "out" (FilamentRecord.mk "Prusament" "Galaxy v1.5" "PETG" 230)
        OutputFormat.Stl = "out/PETG/Prusament/Prusament - PETG - Galaxy v1.stl"
    ∧ destinationPath "out" (FilamentRecord.mk "Prusament" "Galaxy v1.5" "PETG" 230)
        OutputFormat.Stl
      ≠ specOutputPath "out" (FilamentRecord.mk "Prusament" "Galaxy v1.5" "PETG" 230)
        "stl" := by
  refine ⟨rfl, ?_⟩
  decide

/-- Claim C7 amended: for every record whose identity string contains no '.'
character, the destination path is exactly
`<root>/<material>/<manufacturer>/<manufacturer> - <material> - <color>.<ext>`
with the extension chosen by the output format. -/
theorem c7_output_path_construction (root : String) (filament : FilamentRecord)
    (fmt : OutputFormat) (h : '.' ∉ filament.display.toList) :
    destinationPath root filament fmt = specOutputPath root filament fmt.extension := by
  unfold destinationPath specOutputPath outputFilename rustWithExtension
  rw [lastDotIdx_eq_none h]
  unfold FilamentRecord.display
  simp [String.append_assoc]

/-- Witness for C7 at the record from the spec's path-construction example. -/
theorem c7_output_path_construction_witness :
    destinationPath "out" (FilamentRecord.mk "Prusament" "Galaxy Black" "PETG" 230)
        OutputFormat.Stl
      = specOutputPath "out" (FilamentRecord.mk "Prusament" "Galaxy Black" "PETG" 230)
        OutputFormat.Stl.extension :=
  c7_output_path_construction "out"
    (FilamentRecord.mk "Prusament" "Galaxy Black" "PETG" 230)
    OutputFormat.Stl (by decide)

/-- Claim C8 (code evaluated at the failing input): with force set, a
successfully parsed record whose identity string happens to equal an existing
basename is still excluded from the pending set — write never consults the
force flag, so the dedup filter applies regardless. -/
theorem c8_force_flag_does_not_bypass_filter :
    readInventory [["A", "C.stl", "B", "200"]] = [FilamentRecord.mk "A" "C.stl" "B" 200]
    ∧ writePendingRecords { sampleOptions with force := true } ["A - B - C.stl"]
        [["A", "C.stl", "B", "200"]] = [] := by
  refine ⟨?_, ?_⟩ <;> decide

/-- Claim C9: a row that fails to parse is dropped without affecting the
rest, a row that parses contributes exactly its record in place, and in
particular one well-formed row plus one malformed row yield exactly the one
record — the read never aborts. -/
theorem c9_malformed_row_tolerance (pre suf : List (List String))
    (bad good : List String) (r : FilamentRecord)
    (hbad : parseRow bad = none) (hgood : parseRow good = some r) :
    readInventory (pre ++ bad :: suf) = readInventory (pre ++ suf)
    ∧ readInventory (pre ++ good :: suf) = readInventory pre ++ r :: readInventory suf
    ∧ readInventory [good, bad] = [r] := by
  unfold readInventory
  refine ⟨?_, ?_, ?_⟩
  · rw [List.filterMap_append, List.filterMap_append, List.filterMap_cons_none hbad]
  · rw [List.filterMap_append, List.filterMap_cons_some hgood]
  · rw [List.filterMap_cons_some hgood, List.filterMap_cons_none hbad,
      List.filterMap_nil]

/-- Witness for C9: one well-formed row and one row missing the temperature
column yield exactly one record. -/
theorem c9_malformed_row_tolerance_witness :
    readInventory [["Acme", "Red", "PLA"]] = readInventory []
    ∧ readInventory [["Prusament", "Galaxy Black", "PETG", "230"]]
        = readInventory []
          ++ FilamentRecord.mk "Prusament" "Galaxy Black" "PETG" 230 :: readInventory []
    ∧ readInventory [["Prusament", "Galaxy Black", "PETG", "230"], ["Acme", "Red", "PLA"]]
        = [FilamentRecord.mk "Prusament" "Galaxy Black" "PETG" 230] :=
  c9_malformed_row_tolerance [] [] ["Acme", "Red", "PLA"]
    ["Prusament", "Galaxy Black", "PETG", "230"]
    (FilamentRecord.mk "Prusament" "Galaxy Black" "PETG" 230) (by decide) (by decide)

/-- Claim C10: when the identity string has a last dot at a positive index
(the Rust extension rule), with_extension truncates the stem there, so the
generated file name is the prefix up to that dot plus the extension, and is
not `<identity>.<ext>`. -/
theorem c10_with_extension_truncates_dotted_identity (filament : FilamentRecord)
    (fmt : OutputFormat) (i : Nat)
    (h : lastDotIdx filament.display.toList = some i) (hi : 0 < i) :
    outputFilename filament fmt
        = String.mk (filament.display.toList.take i) ++ "." ++ fmt.extension
    ∧ outputFilename filament fmt ≠ filament.display ++ "." ++ fmt.extension := by
  have hlt : i < filament.display.toList.length := lastDotIdx_lt_length h
  have hne : ¬ i = 0 := Nat.pos_iff_ne_zero.mp hi
  have heq : outputFilename filament fmt
      = String.mk (filament.display.toList.take i) ++ "." ++ fmt.extension := by
    unfold outputFilename rustWithExtension
    rw [h]
    exact if_neg hne
  refine ⟨heq, ?_⟩
  rw [heq]
  intro hcon
  have hlen := congrArg String.length hcon
  simp only [String.length_append] at hlen
  have h1 : (String.mk (filament.display.toList.take i)).length
      = min i filament.display.toList.length := List.length_take i filament.display.toList
  have h2 : filament.display.length = filament.display.toList.length := rfl
  rw [h1, Nat.min_eq_left (Nat.le_of_lt hlt), h2] at hlen
  omega

/-- Witness for C10 at the record with color "Galaxy v1.5" (last dot of the
identity at index 28). -/
theorem c10_with_extension_truncates_dotted_identity_witness :
    outputFilename (FilamentRecord.mk "Prusament" "Galaxy v1.5" "PETG" 230)
        OutputFormat.Stl
      = String.mk
          ((FilamentRecord.display
            (FilamentRecord.mk "Prusament" "Galaxy v1.5" "PETG" 230)).toList.take 28)
        ++ "." ++ OutputFormat.Stl.extension
    ∧ outputFilename (FilamentRecord.mk "Prusament" "Galaxy v1.5" "PETG" 230)
        OutputFormat.Stl
      ≠ FilamentRecord.display (FilamentRecord.mk "Prusament" "Galaxy v1.5" "PETG" 230)
        ++ "." ++ OutputFormat.Stl.extension :=
  c10_with_extension_truncates_dotted_identity
    (FilamentRecord.mk "Prusament" "Galaxy v1.5" "PETG" 230)
    OutputFormat.Stl 28 (by decide) (by decide)

end Swatchify
